import Mathlib

set_option linter.unusedVariables false

/-!
Shallow embedding of the two-node watchdog/telemetry firmware:
`Transmissor.c` (transmitter, Pico A) and `hdmi.c` (receiver, Pico B).
Pure data and control flow are translated directly from the C source;
hardware side effects (watchdog feeds, GPIO writes, UART output, flash
programming, display updates, sleeps) are modelled as explicit event
traces, and the globals of each node as explicit state records.
Machine integers are Nat with `% 2 ^ 32` (uint32) or `% 256` (uint8)
where the C code can overflow or truncate.
-/

/-! ## Diagnostic store (Transmissor.c, persist_data_t) -/

/-- Persistent diagnostic record stored in the final flash sector
(`persist_data_t` in Transmissor.c). All fields are uint32. -/
structure PersistData where
  magic : Nat
  boot_count : Nat
  wdt_count : Nat
  last_reset : Nat
  last_fault : Nat
deriving DecidableEq

/-- `FLASH_MAGIC` = 0xDEADBEEF. -/
def FLASH_MAGIC : Nat := 0xDEADBEEF

/-- `load_persist_data` (Transmissor.c lines 75-89): if the flash copy
carries the magic tag it is taken verbatim, otherwise a zeroed record
with the correct tag is installed. The flash contents are modelled as
the record currently stored in the last sector. -/
def load_persist_data (flash : PersistData) : PersistData :=
  if flash.magic = FLASH_MAGIC then flash
  else { magic := FLASH_MAGIC, boot_count := 0, wdt_count := 0, last_reset := 0, last_fault := 0 }

/-- Result of the boot-diagnostic block of `main` in Transmissor.c:
the in-RAM record, the flash copy written back by `save_persist_data`,
and the two watchdog scratch registers. -/
structure BootResult where
  persist : PersistData
  flash : PersistData
  scratch0 : Nat
  scratch1 : Nat
deriving DecidableEq

/-- Boot-diagnostic sequence of `main` (Transmissor.c lines 613-635):
load the record, increment `boot_count`, then either count the watchdog
reset (keeping `last_fault`) or mark a normal reset and clear
`last_fault`; mirror `wdt_count` and `last_fault` into the scratch
registers and write the record back to flash once. -/
def boot_sequence (flash : PersistData) (reboot_wdt : Bool) : BootResult :=
  let p0 := load_persist_data flash
  let p1 := { p0 with boot_count := (p0.boot_count + 1) % 2 ^ 32 }
  let p2 :=
    if reboot_wdt then
      { p1 with wdt_count := (p1.wdt_count + 1) % 2 ^ 32, last_reset := 1 }
    else
      { p1 with last_reset := 0, last_fault := 0 }
  { persist := p2, flash := p2, scratch0 := p2.wdt_count, scratch1 := p2.last_fault }

/-! ## Telemetry codec (Transmissor.c encoder, hdmi.c decoder) -/

/-- The packed 22-byte telemetry struct (`telemetry_data_t`), identical
in both source files. -/
structure TelemetryData where
  header : Nat
  ac_state : Nat
  last_command : Nat
  ir_pending : Nat
  uptime_ms : Nat
  wdt_resets : Nat
  last_fault : Nat
  ir_operations : Nat
  checksum : Nat
  footer : Nat
deriving DecidableEq

/-- `TELEM_HEADER` = 0xAA. -/
def TELEM_HEADER : Nat := 0xAA

/-- `TELEM_FOOTER` = 0x55. -/
def TELEM_FOOTER : Nat := 0x55

/-- Little-endian byte image of a uint32 field. -/
def le32 (x : Nat) : List Nat :=
  [x % 256, x / 256 % 256, x / 65536 % 256, x / 16777216 % 256]

/-- The 22-byte little-endian memory image of the packed struct, as
transmitted by `uart_write_blocking` in `send_telemetry`. -/
def telemBytes (t : TelemetryData) : List Nat :=
  [t.header % 256, t.ac_state % 256, t.last_command % 256, t.ir_pending % 256] ++
    le32 t.uptime_ms ++ le32 t.wdt_resets ++ le32 t.last_fault ++ le32 t.ir_operations ++
    [t.checksum % 256, t.footer % 256]

/-- `calculate_checksum` (identical in Transmissor.c and hdmi.c): a
uint8 running sum over bytes 0..19 of the struct image (`sizeof - 2`
bytes, excluding checksum and footer). The C function always receives
a full struct; shorter lists (unreachable) yield 0. -/
def calculate_checksum : List Nat → Nat
  | b0 :: b1 :: b2 :: b3 :: b4 :: b5 :: b6 :: b7 :: b8 :: b9 ::
    b10 :: b11 :: b12 :: b13 :: b14 :: b15 :: b16 :: b17 :: b18 :: b19 :: _ =>
      ((((((((((((((((((((0 + b0) % 256 + b1) % 256 + b2) % 256 + b3) % 256 +
        b4) % 256 + b5) % 256 + b6) % 256 + b7) % 256 + b8) % 256 + b9) % 256 +
        b10) % 256 + b11) % 256 + b12) % 256 + b13) % 256 + b14) % 256 + b15) % 256 +
        b16) % 256 + b17) % 256 + b18) % 256 + b19) % 256
  | _ => 0

/-- `memcpy` of a 22-byte receive buffer into the packed struct
(hdmi.c, `receive_telemetry_packet`): bytes 0-3 are the uint8 fields,
then four little-endian uint32 fields, then checksum and footer.
Shorter lists (unreachable) yield the zero struct. -/
def bytesToTelem : List Nat → TelemetryData
  | b0 :: b1 :: b2 :: b3 :: b4 :: b5 :: b6 :: b7 :: b8 :: b9 ::
    b10 :: b11 :: b12 :: b13 :: b14 :: b15 :: b16 :: b17 :: b18 :: b19 :: b20 :: b21 :: _ =>
      { header := b0, ac_state := b1, last_command := b2, ir_pending := b3,
        uptime_ms := b4 + 256 * b5 + 65536 * b6 + 16777216 * b7,
        wdt_resets := b8 + 256 * b9 + 65536 * b10 + 16777216 * b11,
        last_fault := b12 + 256 * b13 + 65536 * b14 + 16777216 * b15,
        ir_operations := b16 + 256 * b17 + 65536 * b18 + 16777216 * b19,
        checksum := b20, footer := b21 }
  | _ =>
      { header := 0, ac_state := 0, last_command := 0, ir_pending := 0, uptime_ms := 0,
        wdt_resets := 0, last_fault := 0, ir_operations := 0, checksum := 0, footer := 0 }

/-- `send_telemetry` (Transmissor.c lines 274-295), parameterised by the
globals it reads: the struct is zero-initialised, the fields are filled
from the system state (uint8/uint32 assignments truncate), and the
checksum is computed over bytes 0..19 of the resulting image. -/
def send_telemetry (ac_state last_command : Nat) (ir_pending : Bool)
    (uptime wdt_count fault ops : Nat) : TelemetryData :=
  let t0 : TelemetryData :=
    { header := TELEM_HEADER, ac_state := ac_state % 256, last_command := last_command % 256,
      ir_pending := if ir_pending then 1 else 0, uptime_ms := uptime % 2 ^ 32,
      wdt_resets := wdt_count % 2 ^ 32, last_fault := fault % 2 ^ 32,
      ir_operations := ops % 2 ^ 32, checksum := 0, footer := TELEM_FOOTER }
  { t0 with checksum := calculate_checksum (telemBytes t0) }

/-- Decoder state of `receive_telemetry_packet` in hdmi.c: the static
`rx_buffer` prefix filled so far (length = `rx_index`) and the `synced`
flag. -/
structure RxState where
  rx_buffer : List Nat
  synced : Bool
deriving DecidableEq

/-- The decoder's initial (unsynchronized) state: empty buffer,
`synced = false`. -/
def rxInit : RxState := { rx_buffer := [], synced := false }

/-- One byte of the streaming decoder loop body (hdmi.c lines 319-359):
while unsynchronized, discard until the header sentinel; while
accumulating, append; at 22 bytes reset the state, then validate footer
and checksum, producing the packet only when both match. The C code
checks `rx_buffer[21]` before the `memcpy`; since the buffer is exactly
22 bytes here, that byte is the `footer` field of the copied struct. -/
def receive_byte (st : RxState) (b : Nat) : RxState × Option TelemetryData :=
  if st.synced then
    let buf := st.rx_buffer ++ [b]
    if 22 ≤ buf.length then
      let temp := bytesToTelem buf
      if temp.footer ≠ TELEM_FOOTER then (rxInit, none)
      else if temp.checksum ≠ calculate_checksum buf then (rxInit, none)
      else (rxInit, some temp)
    else ({ rx_buffer := buf, synced := true }, none)
  else
    if b = TELEM_HEADER then ({ rx_buffer := [b], synced := true }, none)
    else (st, none)

/-- Feeding a whole byte stream through the decoder, collecting every
packet it validates (the decoder run without the caller's early
return). -/
def receive_stream : RxState → List Nat → RxState × List TelemetryData
  | st, [] => (st, [])
  | st, b :: rest =>
    let r := receive_byte st b
    let rr := receive_stream r.1 rest
    match r.2 with
    | none => rr
    | some p => (rr.1, p :: rr.2)

/-- `receive_telemetry_packet` (hdmi.c lines 313-362) as called once per
main-loop iteration: consume available bytes until the first validated
packet (returning it and the unconsumed bytes) or until the input is
exhausted. -/
def receive_telemetry_packet : RxState → List Nat → RxState × Option TelemetryData × List Nat
  | st, [] => (st, none, [])
  | st, b :: rest =>
    let r := receive_byte st b
    match r.2 with
    | some p => (r.1, some p, rest)
    | none => receive_telemetry_packet r.1 rest

/-! ## Receiver supervision loop (hdmi.c main, lines 443-474) -/

/-- Globals of the receiver's core-0 loop. -/
structure RxMainState where
  decoder : RxState
  latest : TelemetryData
  telemetry_received : Bool
  last_telemetry_time : Nat
  packet_count : Nat
deriving DecidableEq

/-- Observable actions of one receiver main-loop iteration. `reboot`
is in the alphabet because the specification names a self-reboot
action; the loop body of hdmi.c contains no reset call, so no
iteration ever emits it. -/
inductive RxEvent where
  | printPkt
  | updateDisplay
  | printWarning
  | feedWatchdog
  | sleep10
  | reboot
deriving DecidableEq

/-- One iteration of the receiver main loop (hdmi.c lines 443-474):
try to receive a packet (on success mark telemetry received, record the
arrival time, bump the packet counter and log it), update the display
when its 100 ms deadline elapsed, print a warning when more than
2000 ms passed since the last valid packet, feed the watchdog,
sleep 10 ms. `now` is `to_ms_since_boot` for this iteration and
`displayDue` the state of the display deadline. Returns the new state,
the unconsumed UART bytes and the iteration's events. -/
def receiver_iteration (st : RxMainState) (uart : List Nat) (now : Nat)
    (displayDue : Bool) : RxMainState × List Nat × List RxEvent :=
  let r := receive_telemetry_packet st.decoder uart
  let st1 :=
    match r.2.1 with
    | some p =>
        { st with decoder := r.1, latest := p, telemetry_received := true,
                  last_telemetry_time := now, packet_count := (st.packet_count + 1) % 2 ^ 32 }
    | none => { st with decoder := r.1 }
  let ev1 : List RxEvent := match r.2.1 with | some _ => [.printPkt] | none => []
  let ev2 : List RxEvent := if displayDue then [.updateDisplay] else []
  let ev3 : List RxEvent :=
    if st1.telemetry_received ∧ now - st1.last_telemetry_time > 2000 then [.printWarning] else []
  (st1, r.2.2, ev1 ++ ev2 ++ ev3 ++ [.feedWatchdog, .sleep10])

/-! ## Transmitter state machine and fault catalog (Transmissor.c) -/

/-- Observable actions of the transmitter's command and fault paths. -/
inductive TxEvent where
  | feedWatchdog
  | setPending (b : Bool)
  | setLastCommand (s : Nat)
  | setLastFault (c : Nat)
  | savePersist
  | scratchWrite (i v : Nat)
  | showFault
  | sendTelemetry
  | sleepMs (n : Nat)
  | irCommand (s : Nat)
  | ledPut (pin v : Nat)
  | uartPutsGarbage
deriving DecidableEq

/-- Globals of the transmitter node, plus the flash copy of the
diagnostic record and the watchdog scratch registers. -/
structure TxState where
  persist : PersistData
  flash : PersistData
  scratch0 : Nat
  scratch1 : Nat
  current_state : Nat
  last_command_sent : Nat
  ir_operation_pending : Bool
  ir_operation_counter : Nat
  last_operation_time : Nat
deriving DecidableEq

/-- A fault trigger's outcome: the events it performs before entering
its terminal loop, and the body of that non-terminating loop (repeated
forever; the function never returns). -/
structure FaultOutcome where
  trace : List TxEvent
  loopBody : List TxEvent
deriving DecidableEq

/-- `trigger_infinite_loop_fault` (Transmissor.c lines 394-415): feed
the watchdog, record fault code 1, persist, mirror into scratch[1],
show the fault screen, send one telemetry packet, wait 50 ms, then
blink the blue LED forever without feeding the watchdog. -/
def trigger_infinite_loop_fault (st : TxState) : TxState × FaultOutcome :=
  let p := { st.persist with last_fault := 1 }
  ({ st with persist := p, flash := p, scratch1 := 1 },
   { trace := [.feedWatchdog, .setLastFault 1, .savePersist, .scratchWrite 1 1,
               .showFault, .sendTelemetry, .sleepMs 50],
     loopBody := [.ledPut 12 1, .sleepMs 200, .ledPut 12 0, .sleepMs 200] })

/-- `trigger_uart_stuck_fault` (Transmissor.c lines 417-439): same
protocol with fault code 3; the terminal loop transmits garbage on the
UART forever without feeding the watchdog. -/
def trigger_uart_stuck_fault (st : TxState) : TxState × FaultOutcome :=
  let p := { st.persist with last_fault := 3 }
  ({ st with persist := p, flash := p, scratch1 := 3 },
   { trace := [.feedWatchdog, .setLastFault 3, .savePersist, .scratchWrite 1 3,
               .showFault, .sendTelemetry, .sleepMs 50],
     loopBody := [.uartPutsGarbage, .ledPut 12 1, .sleepMs 100, .ledPut 12 0, .sleepMs 100] })

/-- Result of `execute_ir_command_safe`: either the C function returns
a bool, or it diverges into a terminal fault loop with the given body. -/
inductive ExecResult where
  | returned (ok : Bool)
  | faulted (loopBody : List TxEvent)
deriving DecidableEq

/-- `execute_ir_command_safe` (Transmissor.c lines 298-391). State codes
follow `system_state_t`: 0 OFF, 1 ON, 2 TEMP_20, 3 TEMP_22, 4 FAN_1,
5 FAN_2. Sets the pending flag, the operation time and the last
command, feeds the watchdog; the TEMP_22 command diverts into the
fault-2 protocol (record, persist, mirror, telemetry, 50 ms flush,
terminal loop); the other known states perform the IR action, feed the
watchdog again, wait 100 ms, commit the state, bump the operation
counter and send telemetry; an unknown state clears the pending flag
and returns false. -/
def execute_ir_command_safe (st : TxState) (new_state : Nat) (now : Nat) :
    TxState × List TxEvent × ExecResult :=
  let st := { st with ir_operation_pending := true, last_operation_time := now,
                      last_command_sent := new_state }
  let pre : List TxEvent := [.setPending true, .setLastCommand new_state, .feedWatchdog]
  if new_state = 3 then
    let p := { st.persist with last_fault := 2 }
    ({ st with persist := p, flash := p, scratch1 := 2 },
     pre ++ [.feedWatchdog, .setLastFault 2, .savePersist, .scratchWrite 1 2,
             .showFault, .sendTelemetry, .sleepMs 50],
     .faulted [.ledPut 12 1, .ledPut 25 1, .sleepMs 150, .ledPut 12 0, .ledPut 25 0, .sleepMs 150])
  else if new_state = 0 ∨ new_state = 1 ∨ new_state = 2 ∨ new_state = 4 ∨ new_state = 5 then
    ({ st with ir_operation_pending := false, current_state := new_state,
               ir_operation_counter := (st.ir_operation_counter + 1) % 2 ^ 32 },
     pre ++ [.irCommand new_state, .ledPut 25 (if new_state = 0 then 0 else 1),
             .feedWatchdog, .sleepMs 100, .setPending false, .sendTelemetry],
     .returned true)
  else
    ({ st with ir_operation_pending := false }, pre ++ [.setPending false], .returned false)

/-- uppercase conversion at the top of `process_uart_input`. -/
def toUpper (ch : Nat) : Nat := if 97 ≤ ch ∧ ch ≤ 122 then ch - 32 else ch

/-- `process_uart_input` (Transmissor.c lines 510-582), given the
character read from stdin. Third component: `some body` when the
dispatched handler diverges into a terminal fault loop with that body,
`none` when control returns to the main loop. Digits 1-6 dispatch IR
commands (`'3'` requests TEMP_22, the known-faulting command), `'F'`
and `'U'` trigger the induced faults, `'S'` and `'0'` only print, and
any other character only prints an error. -/
def process_uart_input (st : TxState) (ch : Nat) (now : Nat) :
    TxState × List TxEvent × Option (List TxEvent) :=
  let c := toUpper ch
  let wrap : TxState × List TxEvent × ExecResult → TxState × List TxEvent × Option (List TxEvent) :=
    fun r => match r.2.2 with
      | .returned _ => (r.1, r.2.1, none)
      | .faulted body => (r.1, r.2.1, some body)
  if c = 49 then wrap (execute_ir_command_safe st 1 now)
  else if c = 50 then wrap (execute_ir_command_safe st 0 now)
  else if c = 51 then wrap (execute_ir_command_safe st 3 now)
  else if c = 52 then wrap (execute_ir_command_safe st 2 now)
  else if c = 53 then wrap (execute_ir_command_safe st 4 now)
  else if c = 54 then wrap (execute_ir_command_safe st 5 now)
  else if c = 70 then
    let r := trigger_infinite_loop_fault st
    (r.1, r.2.trace, some r.2.loopBody)
  else if c = 85 then
    let r := trigger_uart_stuck_fault st
    (r.1, r.2.trace, some r.2.loopBody)
  else if c = 83 then (st, [], none)
  else if c = 48 then (st, [], none)
  else (st, [], none)

/-! ## Concrete instances used by witnesses and counterexamples -/

/-- A concrete transmitter state used to instantiate theorems with
hypotheses on concrete inputs. -/
def tx0 : TxState :=
  { persist := { magic := FLASH_MAGIC, boot_count := 5, wdt_count := 2, last_reset := 0, last_fault := 0 },
    flash := { magic := FLASH_MAGIC, boot_count := 5, wdt_count := 2, last_reset := 0, last_fault := 0 },
    scratch0 := 2, scratch1 := 0, current_state := 0, last_command_sent := 0,
    ir_operation_pending := false, ir_operation_counter := 9, last_operation_time := 0 }

/-- A concrete receiver state that has not yet received any packet
(fresh boot: empty decoder, received flag clear). -/
def rx0 : RxMainState :=
  { decoder := rxInit, latest := bytesToTelem [], telemetry_received := false,
    last_telemetry_time := 0, packet_count := 0 }

/-- A concrete receiver state that received its last valid packet at
t = 0 ms. -/
def rx1 : RxMainState :=
  { decoder := rxInit, latest := bytesToTelem [], telemetry_received := true,
    last_telemetry_time := 0, packet_count := 1 }

/-- Modelled from the spec: the six-step fault entry protocol of the
fault catalog (one watchdog feed, fault-code write, synchronous
persist, scratch-register mirror, fault screen, final telemetry packet,
short flush delay), to be compared against the traces the code emits. -/
def spec_fault_entry_protocol (c : Nat) : List TxEvent :=
  [.feedWatchdog, .setLastFault c, .savePersist, .scratchWrite 1 c,
   .showFault, .sendTelemetry, .sleepMs 50]

/-! ## Diagnostic store claims -/

/-- Claim C8: `load_persist_data` never fails its caller. The loaded
record always carries the correct magic tag; when the stored magic
matches, the stored record is returned unchanged; when it does not,
a record with the correct tag and all counters and fault fields zero
is returned. -/
theorem load_never_fails (flash : PersistData) :
    (load_persist_data flash).magic = FLASH_MAGIC ∧
    (flash.magic = FLASH_MAGIC → load_persist_data flash = flash) ∧
    (flash.magic ≠ FLASH_MAGIC →
      load_persist_data flash =
        { magic := FLASH_MAGIC, boot_count := 0, wdt_count := 0, last_reset := 0, last_fault := 0 }) := by
  unfold load_persist_data
  by_cases h : flash.magic = FLASH_MAGIC <;> simp [h]

/-- Witness for C8 at two concrete records: a tagged record is loaded
unchanged, an untagged one degrades to the zeroed default. -/
theorem load_never_fails_witness :
    load_persist_data ⟨3735928559, 7, 2, 1, 3⟩ = ⟨3735928559, 7, 2, 1, 3⟩ ∧
    load_persist_data ⟨0, 7, 2, 1, 3⟩ = ⟨FLASH_MAGIC, 0, 0, 0, 0⟩ :=
  ⟨(load_never_fails ⟨3735928559, 7, 2, 1, 3⟩).2.1 (by decide),
   (load_never_fails ⟨0, 7, 2, 1, 3⟩).2.2 (by decide)⟩

/-- Claim C10: on a boot whose previous reset was not watchdog-caused,
the transmitter clears the persisted `last_fault` to 0 and sets
`last_reset` to normal (0), writes the record back to flash, still
increments `boot_count`, and preserves `wdt_count` unchanged. -/
theorem normal_boot_clears_fault (flash : PersistData) :
    (boot_sequence flash false).persist.last_fault = 0 ∧
    (boot_sequence flash false).persist.last_reset = 0 ∧
    (boot_sequence flash false).flash = (boot_sequence flash false).persist ∧
    (boot_sequence flash false).persist.boot_count =
      ((load_persist_data flash).boot_count + 1) % 2 ^ 32 ∧
    (boot_sequence flash false).persist.wdt_count = (load_persist_data flash).wdt_count := by
  simp [boot_sequence]

/-- Claim C4: the TEMP_22 command persists `last_fault = 2` before its
terminal loop, so the next boot after the watchdog-forced reset loads a
record reporting a watchdog reset (`last_reset = 1`), `last_fault = 2`,
and `wdt_count` incremented by one. -/
theorem temp22_postmortem (st : TxState) (now : Nat)
    (h : st.persist.magic = FLASH_MAGIC) :
    (execute_ir_command_safe st 3 now).1.persist.last_fault = 2 ∧
    (execute_ir_command_safe st 3 now).1.flash.last_fault = 2 ∧
    (boot_sequence (execute_ir_command_safe st 3 now).1.flash true).persist.last_reset = 1 ∧
    (boot_sequence (execute_ir_command_safe st 3 now).1.flash true).persist.last_fault = 2 ∧
    (boot_sequence (execute_ir_command_safe st 3 now).1.flash true).persist.wdt_count =
      (st.persist.wdt_count + 1) % 2 ^ 32 := by
  simp [execute_ir_command_safe, boot_sequence, load_persist_data, h]

/-- Witness for C4 at the concrete state `tx0` (tagged record,
`wdt_count = 2`). -/
theorem temp22_postmortem_witness :
    tx0.persist.magic = FLASH_MAGIC ∧
    ((execute_ir_command_safe tx0 3 100).1.persist.last_fault = 2 ∧
     (execute_ir_command_safe tx0 3 100).1.flash.last_fault = 2 ∧
     (boot_sequence (execute_ir_command_safe tx0 3 100).1.flash true).persist.last_reset = 1 ∧
     (boot_sequence (execute_ir_command_safe tx0 3 100).1.flash true).persist.last_fault = 2 ∧
     (boot_sequence (execute_ir_command_safe tx0 3 100).1.flash true).persist.wdt_count =
       (tx0.persist.wdt_count + 1) % 2 ^ 32) :=
  ⟨by decide, temp22_postmortem tx0 100 (by decide)⟩

/-! ## Command surface claims -/

/-- Claim C9: a character whose uppercase form is outside the recognized
command set (1-6, F, U, S, 0) leaves the whole transmitter state
unchanged, performs no observable action (in particular emits no
telemetry packet) and returns to the main loop. -/
theorem unrecognized_command_no_effect (st : TxState) (ch now : Nat)
    (h : toUpper ch ∉ [49, 50, 51, 52, 53, 54, 70, 85, 83, 48]) :
    process_uart_input st ch now = (st, [], none) := by
  have h1 : toUpper ch ≠ 49 := fun e => h (by simp [e])
  have h2 : toUpper ch ≠ 50 := fun e => h (by simp [e])
  have h3 : toUpper ch ≠ 51 := fun e => h (by simp [e])
  have h4 : toUpper ch ≠ 52 := fun e => h (by simp [e])
  have h5 : toUpper ch ≠ 53 := fun e => h (by simp [e])
  have h6 : toUpper ch ≠ 54 := fun e => h (by simp [e])
  have h7 : toUpper ch ≠ 70 := fun e => h (by simp [e])
  have h8 : toUpper ch ≠ 85 := fun e => h (by simp [e])
  have h9 : toUpper ch ≠ 83 := fun e => h (by simp [e])
  have h10 : toUpper ch ≠ 48 := fun e => h (by simp [e])
  simp [process_uart_input, h1, h2, h3, h4, h5, h6, h7, h8, h9, h10]

/-- Witness for C9: the character `'X'` (88) is unrecognized and has no
effect on the concrete state `tx0`. -/
theorem unrecognized_command_no_effect_witness :
    toUpper 88 ∉ [49, 50, 51, 52, 53, 54, 70, 85, 83, 48] ∧
    process_uart_input tx0 88 0 = (tx0, [], none) :=
  ⟨by decide, unrecognized_command_no_effect tx0 88 0 (by decide)⟩

/-! ## Fault catalog claims -/

/-- Claim C2: each of the three fault triggers performs, in this exact
order: one watchdog feed, the fault-code write into `last_fault`, the
synchronous flash persist, the scratch-register mirror, one final
telemetry packet followed by a fixed 50 ms delay, and entry into a
non-terminating loop that never feeds the watchdog; for the TEMP_22
trigger, nothing preceding the protocol touches the record, the flash,
the scratch registers or the telemetry stream. The state conjuncts
record the corresponding writes. -/
theorem fault_triggers_follow_protocol (st : TxState) (now : Nat) :
    ((trigger_infinite_loop_fault st).2.trace = spec_fault_entry_protocol 1 ∧
      TxEvent.feedWatchdog ∉ (trigger_infinite_loop_fault st).2.loopBody ∧
      (trigger_infinite_loop_fault st).1.persist.last_fault = 1 ∧
      (trigger_infinite_loop_fault st).1.flash = (trigger_infinite_loop_fault st).1.persist ∧
      (trigger_infinite_loop_fault st).1.scratch1 = 1) ∧
    ((trigger_uart_stuck_fault st).2.trace = spec_fault_entry_protocol 3 ∧
      TxEvent.feedWatchdog ∉ (trigger_uart_stuck_fault st).2.loopBody ∧
      (trigger_uart_stuck_fault st).1.persist.last_fault = 3 ∧
      (trigger_uart_stuck_fault st).1.flash = (trigger_uart_stuck_fault st).1.persist ∧
      (trigger_uart_stuck_fault st).1.scratch1 = 3) ∧
    (∃ pre body,
      (execute_ir_command_safe st 3 now).2.1 = pre ++ spec_fault_entry_protocol 2 ∧
      (execute_ir_command_safe st 3 now).2.2 = .faulted body ∧
      (∀ e ∈ pre, e ≠ .setLastFault 2 ∧ e ≠ .savePersist ∧
        (∀ i v, e ≠ .scratchWrite i v) ∧ e ≠ .sendTelemetry) ∧
      TxEvent.feedWatchdog ∉ body ∧
      (execute_ir_command_safe st 3 now).1.persist.last_fault = 2 ∧
      (execute_ir_command_safe st 3 now).1.flash = (execute_ir_command_safe st 3 now).1.persist ∧
      (execute_ir_command_safe st 3 now).1.scratch1 = 2) := by
  refine ⟨⟨rfl, ?_, rfl, rfl, rfl⟩, ⟨rfl, ?_, rfl, rfl, rfl⟩, ?_⟩
  · show TxEvent.feedWatchdog ∉
      [TxEvent.ledPut 12 1, .sleepMs 200, .ledPut 12 0, .sleepMs 200]
    decide
  · show TxEvent.feedWatchdog ∉
      [TxEvent.uartPutsGarbage, .ledPut 12 1, .sleepMs 100, .ledPut 12 0, .sleepMs 100]
    decide
  refine ⟨[.setPending true, .setLastCommand 3, .feedWatchdog],
          [.ledPut 12 1, .ledPut 25 1, .sleepMs 150, .ledPut 12 0, .ledPut 25 0, .sleepMs 150],
          rfl, rfl, ?_, by decide, rfl, rfl, rfl⟩
  intro e he
  simp only [List.mem_cons, List.not_mem_nil, or_false] at he
  rcases he with rfl | rfl | rfl <;>
    exact ⟨by simp, by simp, fun i v => by simp, by simp⟩

/-! ## Telemetry codec lemmas -/

/-- A byte other than the header sentinel leaves the unsynchronized
decoder unchanged. -/
theorem rb_noise (b : Nat) (h : b ≠ TELEM_HEADER) :
    receive_byte rxInit b = (rxInit, none) := by
  simp [receive_byte, rxInit, h]

/-- The header sentinel synchronizes the decoder and is stored as the
first buffer byte. -/
theorem rb_sync : receive_byte rxInit TELEM_HEADER = (⟨[TELEM_HEADER], true⟩, none) := by
  simp [receive_byte, rxInit]

/-- While fewer than 22 bytes are buffered, an incoming byte is
appended. -/
theorem rb_continue (buf : List Nat) (b : Nat) (h : buf.length + 1 < 22) :
    receive_byte ⟨buf, true⟩ b = (⟨buf ++ [b], true⟩, none) := by
  simp [receive_byte, show ¬ 21 ≤ buf.length from by omega]

/-- The 22nd byte completes the frame: the decoder resets and the frame
is emitted exactly when footer and checksum validate. -/
theorem rb_complete (buf : List Nat) (b : Nat) (h : buf.length = 21) :
    receive_byte ⟨buf, true⟩ b =
      (if (bytesToTelem (buf ++ [b])).footer = TELEM_FOOTER ∧
          (bytesToTelem (buf ++ [b])).checksum = calculate_checksum (buf ++ [b]) then
        (rxInit, some (bytesToTelem (buf ++ [b])))
      else (rxInit, none)) := by
  by_cases hf : (bytesToTelem (buf ++ [b])).footer = TELEM_FOOTER
  · by_cases hc : (bytesToTelem (buf ++ [b])).checksum = calculate_checksum (buf ++ [b])
    · simp [receive_byte, h, hf, hc]
    · simp [receive_byte, h, hf, hc]
  · simp [receive_byte, h, hf]

/-- Decoding distributes over concatenation of the input. -/
theorem receive_stream_append (l1 l2 : List Nat) (st : RxState) :
    receive_stream st (l1 ++ l2) =
      ((receive_stream (receive_stream st l1).1 l2).1,
       (receive_stream st l1).2 ++ (receive_stream (receive_stream st l1).1 l2).2) := by
  induction l1 generalizing st with
  | nil => simp [receive_stream]
  | cons b l1 ih =>
    simp only [List.cons_append, receive_stream, List.append_eq]
    cases h : (receive_byte st b).2 with
    | none => simp only [h]; rw [ih]
    | some p => simp only [h]; rw [ih]; simp

/-- Composition form of `receive_stream_append`: a decoding run splits
along a concatenation of its input. -/
theorem receive_stream_append_eq (l1 l2 : List Nat) (st st1 st2 : RxState)
    (o1 o2 : List TelemetryData) (h1 : receive_stream st l1 = (st1, o1))
    (h2 : receive_stream st1 l2 = (st2, o2)) :
    receive_stream st (l1 ++ l2) = (st2, o1 ++ o2) := by
  rw [receive_stream_append l1 l2 st, h1]
  simp [h2]

/-- A stream without the header sentinel is discarded entirely and the
decoder stays unsynchronized. -/
theorem receive_stream_noise (l : List Nat) (h : ∀ b ∈ l, b ≠ TELEM_HEADER) :
    receive_stream rxInit l = (rxInit, []) := by
  induction l with
  | nil => simp [receive_stream]
  | cons b l ih =>
    have hrb : receive_byte rxInit b = (rxInit, none) :=
      rb_noise b (h b (List.mem_cons_self b l))
    simp [receive_stream, hrb, ih fun x hx => h x (List.mem_cons_of_mem _ hx)]

/-- From a partially filled buffer, the decoder accumulates until the
frame completes, then resets and validates the full 22-byte frame. -/
theorem receive_stream_accum (l : List Nat) : ∀ (buf : List Nat) (rest : List Nat),
    0 < buf.length → buf.length < 22 → buf.length + l.length = 22 →
    receive_stream { rx_buffer := buf, synced := true } (l ++ rest) =
      (if (bytesToTelem (buf ++ l)).footer = TELEM_FOOTER ∧
          (bytesToTelem (buf ++ l)).checksum = calculate_checksum (buf ++ l) then
        ((receive_stream rxInit rest).1, bytesToTelem (buf ++ l) :: (receive_stream rxInit rest).2)
      else receive_stream rxInit rest) := by
  induction l with
  | nil =>
    intro buf rest h1 h2 h3
    simp at h3
    omega
  | cons b l ih =>
    intro buf rest h1 h2 h3
    have h3' : buf.length + (l.length + 1) = 22 := by simpa using h3
    by_cases hl : l = []
    · subst hl
      have hlen : buf.length = 21 := by simp at h3'; omega
      have hrb := rb_complete buf b hlen
      by_cases hf : (bytesToTelem (buf ++ [b])).footer = TELEM_FOOTER
      · by_cases hc : (bytesToTelem (buf ++ [b])).checksum = calculate_checksum (buf ++ [b])
        · rw [if_pos ⟨hf, hc⟩] at hrb
          simp [receive_stream, hrb, hf, hc]
        · rw [if_neg (by tauto)] at hrb
          simp [receive_stream, hrb, hf, hc]
      · rw [if_neg (by tauto)] at hrb
        simp [receive_stream, hrb, hf]
    · have hl1 : 1 ≤ l.length := by
        cases l with
        | nil => exact absurd rfl hl
        | cons x xs => simp
      have hrb := rb_continue buf b (by omega)
      have heq : receive_stream ⟨buf, true⟩ ((b :: l) ++ rest) =
          receive_stream ⟨buf ++ [b], true⟩ (l ++ rest) := by
        simp [receive_stream, hrb]
      rw [heq, ih (buf ++ [b]) rest (by simp) (by simp; omega) (by simp; omega)]
      have hx : (buf ++ [b]) ++ l = buf ++ b :: l := by simp
      rw [hx]

/-- Decoding a full 22-byte frame whose first byte is the header
sentinel, from the unsynchronized state: the decoder returns to
unsynchronized and emits the frame exactly when it validates. -/
theorem receive_stream_full (full rest : List Nat) (hlen : full.length = 22)
    (hhead : full.getD 0 0 = TELEM_HEADER) :
    receive_stream rxInit (full ++ rest) =
      (if (bytesToTelem full).footer = TELEM_FOOTER ∧
          (bytesToTelem full).checksum = calculate_checksum full then
        ((receive_stream rxInit rest).1, bytesToTelem full :: (receive_stream rxInit rest).2)
      else receive_stream rxInit rest) := by
  cases full with
  | nil => simp at hlen
  | cons b body =>
    have hb : b = TELEM_HEADER := by simpa using hhead
    subst hb
    have step : receive_stream rxInit ((TELEM_HEADER :: body) ++ rest) =
        receive_stream ⟨[TELEM_HEADER], true⟩ (body ++ rest) := by
      simp [receive_stream, rb_sync]
    rw [step,
      receive_stream_accum body [TELEM_HEADER] rest (by simp) (by simp)
        (by simp at hlen ⊢; omega)]
    simp

/-- An invalid 22-byte frame is rejected: nothing is emitted and the
decoder is back in the unsynchronized state. -/
theorem receive_stream_reject (full : List Nat) (hlen : full.length = 22)
    (hhead : full.getD 0 0 = TELEM_HEADER)
    (hbad : ¬((bytesToTelem full).footer = TELEM_FOOTER ∧
        (bytesToTelem full).checksum = calculate_checksum full)) :
    receive_stream rxInit full = (rxInit, []) := by
  have h := receive_stream_full full [] hlen hhead
  rw [if_neg hbad] at h
  simpa [receive_stream] using h

/-- The checksum computed by `calculate_checksum` is a uint8. -/
theorem calculate_checksum_lt (l : List Nat) : calculate_checksum l < 256 := by
  unfold calculate_checksum
  split <;> omega

/-- The encoder's checksum field is a uint8. -/
theorem send_telemetry_checksum_lt (ac lc : Nat) (p : Bool) (u w f o : Nat) :
    (send_telemetry ac lc p u w f o).checksum < 256 := by
  simp only [send_telemetry]
  exact calculate_checksum_lt _

/-- The uint8 running sum equals the 8-bit sum of bytes 0..19. -/
theorem checksum_nested_eq_sum
    (b0 b1 b2 b3 b4 b5 b6 b7 b8 b9 b10 b11 b12 b13 b14 b15 b16 b17 b18 b19 : Nat)
    (rest : List Nat) :
    calculate_checksum (b0 :: b1 :: b2 :: b3 :: b4 :: b5 :: b6 :: b7 :: b8 :: b9 ::
      b10 :: b11 :: b12 :: b13 :: b14 :: b15 :: b16 :: b17 :: b18 :: b19 :: rest) =
      ((b0 :: b1 :: b2 :: b3 :: b4 :: b5 :: b6 :: b7 :: b8 :: b9 ::
        b10 :: b11 :: b12 :: b13 :: b14 :: b15 :: b16 :: b17 :: b18 :: b19 :: rest).take 20).sum %
        256 := by
  have ht : (b0 :: b1 :: b2 :: b3 :: b4 :: b5 :: b6 :: b7 :: b8 :: b9 ::
      b10 :: b11 :: b12 :: b13 :: b14 :: b15 :: b16 :: b17 :: b18 :: b19 :: rest).take 20 =
      [b0, b1, b2, b3, b4, b5, b6, b7, b8, b9, b10, b11, b12, b13, b14, b15, b16, b17, b18, b19] :=
    rfl
  rw [ht]
  show ((((((((((((((((((((0 + b0) % 256 + b1) % 256 + b2) % 256 + b3) % 256 +
        b4) % 256 + b5) % 256 + b6) % 256 + b7) % 256 + b8) % 256 + b9) % 256 +
        b10) % 256 + b11) % 256 + b12) % 256 + b13) % 256 + b14) % 256 + b15) % 256 +
        b16) % 256 + b17) % 256 + b18) % 256 + b19) % 256 = _
  simp only [List.sum_cons, List.sum_nil]
  omega

/-- `calculate_checksum` over the serialized image is the 8-bit sum of
its bytes 0..19. -/
theorem calculate_checksum_telemBytes_eq_sum (t : TelemetryData) :
    calculate_checksum (telemBytes t) = ((telemBytes t).take 20).sum % 256 :=
  checksum_nested_eq_sum (t.header % 256) (t.ac_state % 256) (t.last_command % 256)
    (t.ir_pending % 256) (t.uptime_ms % 256) (t.uptime_ms / 256 % 256)
    (t.uptime_ms / 65536 % 256) (t.uptime_ms / 16777216 % 256) (t.wdt_resets % 256)
    (t.wdt_resets / 256 % 256) (t.wdt_resets / 65536 % 256) (t.wdt_resets / 16777216 % 256)
    (t.last_fault % 256) (t.last_fault / 256 % 256) (t.last_fault / 65536 % 256)
    (t.last_fault / 16777216 % 256) (t.ir_operations % 256) (t.ir_operations / 256 % 256)
    (t.ir_operations / 65536 % 256) (t.ir_operations / 16777216 % 256)
    [t.checksum % 256, t.footer % 256]

/-- Serialization followed by the receiver's `memcpy` view is the
identity on structs whose fields are in machine range. -/
theorem bytesToTelem_telemBytes_of_lt (t : TelemetryData)
    (h1 : t.header < 256) (h2 : t.ac_state < 256) (h3 : t.last_command < 256)
    (h4 : t.ir_pending < 256) (h5 : t.uptime_ms < 2 ^ 32) (h6 : t.wdt_resets < 2 ^ 32)
    (h7 : t.last_fault < 2 ^ 32) (h8 : t.ir_operations < 2 ^ 32)
    (h9 : t.checksum < 256) (h10 : t.footer < 256) :
    bytesToTelem (telemBytes t) = t := by
  obtain ⟨a0, a1, a2, a3, a4, a5, a6, a7, a8, a9⟩ := t
  simp only [telemBytes, le32, List.cons_append, List.nil_append, bytesToTelem] at *
  simp only [TelemetryData.mk.injEq]
  refine ⟨?_, ?_, ?_, ?_, ?_, ?_, ?_, ?_, ?_, ?_⟩ <;> omega

/-- The round trip is the identity on every encoder output. -/
theorem bytesToTelem_send (ac lc : Nat) (p : Bool) (u w f o : Nat) :
    bytesToTelem (telemBytes (send_telemetry ac lc p u w f o)) =
      send_telemetry ac lc p u w f o := by
  apply bytesToTelem_telemBytes_of_lt
  · show (0xAA : Nat) < 256; norm_num
  · show ac % 256 < 256; exact Nat.mod_lt _ (by norm_num)
  · show lc % 256 < 256; exact Nat.mod_lt _ (by norm_num)
  · show (if p then 1 else 0 : Nat) < 256; cases p <;> norm_num
  · show u % 2 ^ 32 < 2 ^ 32; exact Nat.mod_lt _ (by norm_num)
  · show w % 2 ^ 32 < 2 ^ 32; exact Nat.mod_lt _ (by norm_num)
  · show f % 2 ^ 32 < 2 ^ 32; exact Nat.mod_lt _ (by norm_num)
  · show o % 2 ^ 32 < 2 ^ 32; exact Nat.mod_lt _ (by norm_num)
  · exact send_telemetry_checksum_lt ac lc p u w f o
  · show (0x55 : Nat) < 256; norm_num

/-- Every encoder output passes the receiver's footer check. -/
theorem send_frame_footer (ac lc : Nat) (p : Bool) (u w f o : Nat) :
    (bytesToTelem (telemBytes (send_telemetry ac lc p u w f o))).footer = TELEM_FOOTER := rfl

/-- Every encoder output passes the receiver's checksum check. -/
theorem send_frame_checksum (ac lc : Nat) (p : Bool) (u w f o : Nat) :
    (bytesToTelem (telemBytes (send_telemetry ac lc p u w f o))).checksum =
      calculate_checksum (telemBytes (send_telemetry ac lc p u w f o)) := by
  show (send_telemetry ac lc p u w f o).checksum % 256 = _
  rw [Nat.mod_eq_of_lt (send_telemetry_checksum_lt ac lc p u w f o)]
  rfl

/-- A serialized encoder frame at the head of the stream is decoded to
exactly the encoded packet, after which decoding continues on the rest
from the unsynchronized state. -/
theorem decode_send_frame (ac lc : Nat) (p : Bool) (u w f o : Nat) (rest : List Nat) :
    receive_stream rxInit (telemBytes (send_telemetry ac lc p u w f o) ++ rest) =
      ((receive_stream rxInit rest).1,
        send_telemetry ac lc p u w f o :: (receive_stream rxInit rest).2) := by
  rw [receive_stream_full (telemBytes (send_telemetry ac lc p u w f o)) rest
      (by simp [telemBytes, le32]) (by rfl),
    if_pos ⟨send_frame_footer ac lc p u w f o, send_frame_checksum ac lc p u w f o⟩,
    bytesToTelem_send]

/-- Claim C3: for every combination of packet fields, feeding the 22
bytes produced by `send_telemetry` byte-by-byte into the receiver's
decoder, starting unsynchronized, yields exactly that packet and leaves
the decoder unsynchronized; the encoded checksum equals the 8-bit
unsigned sum of bytes 0-19. -/
theorem decode_encode_roundtrip (ac lc : Nat) (p : Bool) (u w f o : Nat) :
    receive_stream rxInit (telemBytes (send_telemetry ac lc p u w f o)) =
      (rxInit, [send_telemetry ac lc p u w f o]) ∧
    (send_telemetry ac lc p u w f o).checksum =
      ((telemBytes (send_telemetry ac lc p u w f o)).take 20).sum % 256 := by
  constructor
  · have h := decode_send_frame ac lc p u w f o []
    simpa [receive_stream] using h
  · rw [show (send_telemetry ac lc p u w f o).checksum =
        calculate_checksum (telemBytes (send_telemetry ac lc p u w f o)) from rfl]
    exact calculate_checksum_telemBytes_eq_sum _

/-- Claim C5: a byte stream consisting of exactly one well-formed
(encoder-produced) 22-byte packet, preceded and followed by arbitrary
noise bytes none of which is the header sentinel 0xAA, decodes —
starting from the unsynchronized state — to exactly that one packet and
nothing else, ending unsynchronized. -/
theorem resync_extracts_single_packet (n1 n2 : List Nat) (ac lc : Nat) (p : Bool)
    (u w f o : Nat) (h1 : ∀ b ∈ n1, b ≠ TELEM_HEADER) (h2 : ∀ b ∈ n2, b ≠ TELEM_HEADER) :
    receive_stream rxInit (n1 ++ telemBytes (send_telemetry ac lc p u w f o) ++ n2) =
      (rxInit, [send_telemetry ac lc p u w f o]) := by
  have h1' := receive_stream_noise n1 h1
  have h2' := receive_stream_noise n2 h2
  have e2 := decode_send_frame ac lc p u w f o n2
  rw [h2'] at e2
  have e2' : receive_stream rxInit (telemBytes (send_telemetry ac lc p u w f o) ++ n2) =
      (rxInit, [send_telemetry ac lc p u w f o]) := e2
  have main := receive_stream_append_eq n1 (telemBytes (send_telemetry ac lc p u w f o) ++ n2)
      rxInit rxInit rxInit [] [send_telemetry ac lc p u w f o] h1' e2'
  rw [← List.append_assoc] at main
  exact main

/-- Witness for C5: noise `[1, 2, 3]` and `[99]` around a concrete
frame. -/
theorem resync_extracts_single_packet_witness :
    (∀ b ∈ [1, 2, 3], b ≠ TELEM_HEADER) ∧ (∀ b ∈ [99], b ≠ TELEM_HEADER) ∧
    receive_stream rxInit ([1, 2, 3] ++ telemBytes (send_telemetry 1 1 false 1234 0 0 7) ++ [99]) =
      (rxInit, [send_telemetry 1 1 false 1234 0 0 7]) :=
  ⟨by decide, by decide,
   resync_extracts_single_packet [1, 2, 3] [99] 1 1 false 1234 0 0 7 (by decide) (by decide)⟩

/-- Replacing the checksum byte (offset 20) of the serialized frame is
replacing the checksum field of the serialized struct, for byte
values. -/
theorem telemBytes_set_checksum (t : TelemetryData) (c : Nat) (hc : c < 256) :
    (telemBytes t).set 20 c = telemBytes { t with checksum := c } := by
  have h : c % 256 = c := Nat.mod_eq_of_lt hc
  simp only [telemBytes, le32, List.cons_append, List.nil_append]
  simp [List.set, h]

/-- Replacing the footer byte (offset 21) of the serialized frame is
replacing the footer field of the serialized struct, for byte values. -/
theorem telemBytes_set_footer (t : TelemetryData) (c : Nat) (hc : c < 256) :
    (telemBytes t).set 21 c = telemBytes { t with footer := c } := by
  have h : c % 256 = c := Nat.mod_eq_of_lt hc
  simp only [telemBytes, le32, List.cons_append, List.nil_append]
  simp [List.set, h]

/-- Claim C6: for every encoder-produced frame, flipping any single bit
of the checksum byte (offset 20), or replacing the footer byte (offset
21) by any byte other than 0x55, makes the decoder reject the frame: no
packet is produced, no error is surfaced (the result is simply empty),
and the decoder is back in the unsynchronized state. -/
theorem corruption_rejected (ac lc : Nat) (p : Bool) (u w f o k fb : Nat)
    (hk : k < 8) (hfb : fb ≠ TELEM_FOOTER) (hfb2 : fb < 256) :
    receive_stream rxInit
        ((telemBytes (send_telemetry ac lc p u w f o)).set 20
          ((send_telemetry ac lc p u w f o).checksum ^^^ 2 ^ k)) = (rxInit, []) ∧
    receive_stream rxInit ((telemBytes (send_telemetry ac lc p u w f o)).set 21 fb) =
      (rxInit, []) := by
  constructor
  · have hcs := send_telemetry_checksum_lt ac lc p u w f o
    have hklt : (2 : Nat) ^ k < 2 ^ 8 := Nat.pow_lt_pow_right (by norm_num) hk
    have hlt : (send_telemetry ac lc p u w f o).checksum ^^^ 2 ^ k < 256 :=
      Nat.xor_lt_two_pow (n := 8) (by simpa using hcs) hklt
    rw [telemBytes_set_checksum _ _ hlt]
    refine receive_stream_reject _ (by simp [telemBytes, le32]) (by rfl) ?_
    rintro ⟨-, hc⟩
    have heq : (send_telemetry ac lc p u w f o).checksum ^^^ 2 ^ k =
        (send_telemetry ac lc p u w f o).checksum := by
      calc (send_telemetry ac lc p u w f o).checksum ^^^ 2 ^ k
          = ((send_telemetry ac lc p u w f o).checksum ^^^ 2 ^ k) % 256 :=
            (Nat.mod_eq_of_lt hlt).symm
        _ = (bytesToTelem (telemBytes
              { send_telemetry ac lc p u w f o with
                checksum := (send_telemetry ac lc p u w f o).checksum ^^^ 2 ^ k })).checksum := rfl
        _ = calculate_checksum (telemBytes
              { send_telemetry ac lc p u w f o with
                checksum := (send_telemetry ac lc p u w f o).checksum ^^^ 2 ^ k }) := hc
        _ = (send_telemetry ac lc p u w f o).checksum := rfl
    have hzero : (2 : Nat) ^ k = 0 :=
      Nat.xor_right_inj.mp (by rw [Nat.xor_zero]; exact heq)
    exact absurd hzero (by positivity)
  · rw [telemBytes_set_footer _ _ hfb2]
    refine receive_stream_reject _ (by simp [telemBytes, le32]) (by rfl) ?_
    rintro ⟨hf, -⟩
    refine hfb ?_
    rw [← Nat.mod_eq_of_lt hfb2]
    exact hf

/-- Witness for C6: flipping bit 0 of the checksum byte, and writing
0x54 into the footer byte, of a concrete frame. -/
theorem corruption_rejected_witness :
    (0 : Nat) < 8 ∧ (0x54 : Nat) ≠ TELEM_FOOTER ∧ (0x54 : Nat) < 256 ∧
    (receive_stream rxInit ((telemBytes (send_telemetry 1 0 false 500 0 0 3)).set 20
        ((send_telemetry 1 0 false 500 0 0 3).checksum ^^^ 2 ^ 0)) = (rxInit, []) ∧
     receive_stream rxInit ((telemBytes (send_telemetry 1 0 false 500 0 0 3)).set 21 0x54) =
       (rxInit, [])) :=
  ⟨by decide, by decide, by decide,
   corruption_rejected 1 0 false 500 0 0 3 0 0x54 (by decide) (by decide) (by decide)⟩

/-! ## Receiver supervision claims -/

/-- `receive_telemetry_packet` accumulates a partial frame and returns
the validated packet together with the unconsumed bytes. -/
theorem rtp_accum (l : List Nat) : ∀ (buf rest : List Nat),
    0 < buf.length → buf.length < 22 → buf.length + l.length = 22 →
    (bytesToTelem (buf ++ l)).footer = TELEM_FOOTER →
    (bytesToTelem (buf ++ l)).checksum = calculate_checksum (buf ++ l) →
    receive_telemetry_packet ⟨buf, true⟩ (l ++ rest) =
      (rxInit, some (bytesToTelem (buf ++ l)), rest) := by
  induction l with
  | nil =>
    intro buf rest h1 h2 h3 _ _
    simp at h3
    omega
  | cons b l ih =>
    intro buf rest h1 h2 h3 hf hc
    have h3' : buf.length + (l.length + 1) = 22 := by simpa using h3
    by_cases hl : l = []
    · subst hl
      have hlen : buf.length = 21 := by simp at h3'; omega
      have hrb := rb_complete buf b hlen
      rw [if_pos ⟨hf, hc⟩] at hrb
      simp [receive_telemetry_packet, hrb]
    · have hl1 : 1 ≤ l.length := by
        cases l with
        | nil => exact absurd rfl hl
        | cons x xs => simp
      have hrb := rb_continue buf b (by omega)
      have heq : receive_telemetry_packet ⟨buf, true⟩ ((b :: l) ++ rest) =
          receive_telemetry_packet ⟨buf ++ [b], true⟩ (l ++ rest) := by
        simp [receive_telemetry_packet, hrb]
      have hx : (buf ++ [b]) ++ l = buf ++ b :: l := by simp
      rw [heq, ih (buf ++ [b]) rest (by simp) (by simp; omega) (by simp; omega)
        (by rw [hx]; exact hf) (by rw [hx]; exact hc), hx]

/-- `receive_telemetry_packet` on a valid frame at the head of the
input: the frame is returned and the trailing bytes stay unread. -/
theorem rtp_full (full rest : List Nat) (hlen : full.length = 22)
    (hhead : full.getD 0 0 = TELEM_HEADER)
    (hf : (bytesToTelem full).footer = TELEM_FOOTER)
    (hc : (bytesToTelem full).checksum = calculate_checksum full) :
    receive_telemetry_packet rxInit (full ++ rest) = (rxInit, some (bytesToTelem full), rest) := by
  cases full with
  | nil => simp at hlen
  | cons b body =>
    have hb : b = TELEM_HEADER := by simpa using hhead
    subst hb
    have step : receive_telemetry_packet rxInit ((TELEM_HEADER :: body) ++ rest) =
        receive_telemetry_packet ⟨[TELEM_HEADER], true⟩ (body ++ rest) := by
      simp [receive_telemetry_packet, rb_sync]
    rw [step]
    have h := rtp_accum body [TELEM_HEADER] rest (by simp) (by simp)
      (by simp at hlen ⊢; omega) (by simpa using hf) (by simpa using hc)
    simpa using h

/-- `receive_telemetry_packet` returns every encoder frame. -/
theorem rtp_send_frame (ac lc : Nat) (p : Bool) (u w f o : Nat) (rest : List Nat) :
    receive_telemetry_packet rxInit (telemBytes (send_telemetry ac lc p u w f o) ++ rest) =
      (rxInit, some (send_telemetry ac lc p u w f o), rest) := by
  have h := rtp_full (telemBytes (send_telemetry ac lc p u w f o)) rest
    (by simp [telemBytes, le32]) (by rfl)
    (send_frame_footer ac lc p u w f o) (send_frame_checksum ac lc p u w f o)
  rw [bytesToTelem_send] at h
  exact h

/-- Claim C1 counterexample: a validated telemetry packet carrying
fault code 2 arrives when the receiver's uptime is 6000 ms — past the
5000 ms grace period the specification names. The receiver accepts the
packet (counter increments, fault code recorded for display) but the
iteration performs no reboot action: the claimed grace-period
self-reboot does not exist anywhere in the hdmi.c main loop. -/
theorem receiver_no_grace_reboot_counterexample :
    (receiver_iteration rx0 (telemBytes (send_telemetry 3 3 false 6000 0 2 0))
        6000 false).1.packet_count = 1 ∧
    (receiver_iteration rx0 (telemBytes (send_telemetry 3 3 false 6000 0 2 0))
        6000 false).1.latest.last_fault = 2 ∧
    RxEvent.reboot ∉ (receiver_iteration rx0 (telemBytes (send_telemetry 3 3 false 6000 0 2 0))
        6000 false).2.2 := by
  decide

/-- Claim C1 (amended): the receiver never reboots itself. Every
decoded packet — fault-bearing or not, before or after any grace
period — is processed identically: the live flag is set, the arrival
time recorded, the packet counter incremented, the packet stored for
display; the iteration's actions never include a reboot. -/
theorem receiver_processes_fault_packet_without_reboot (st : RxMainState)
    (ac lc : Nat) (p : Bool) (u w f o now : Nat) (d : Bool)
    (hdec : st.decoder = rxInit) :
    RxEvent.reboot ∉
      (receiver_iteration st (telemBytes (send_telemetry ac lc p u w f o)) now d).2.2 ∧
    (receiver_iteration st (telemBytes (send_telemetry ac lc p u w f o))
        now d).1.telemetry_received = true ∧
    (receiver_iteration st (telemBytes (send_telemetry ac lc p u w f o))
        now d).1.last_telemetry_time = now ∧
    (receiver_iteration st (telemBytes (send_telemetry ac lc p u w f o))
        now d).1.packet_count = (st.packet_count + 1) % 2 ^ 32 ∧
    (receiver_iteration st (telemBytes (send_telemetry ac lc p u w f o))
        now d).1.latest = send_telemetry ac lc p u w f o := by
  have hr : receive_telemetry_packet st.decoder (telemBytes (send_telemetry ac lc p u w f o)) =
      (rxInit, some (send_telemetry ac lc p u w f o), []) := by
    rw [hdec]
    have h := rtp_send_frame ac lc p u w f o []
    rw [List.append_nil] at h
    exact h
  refine ⟨?_, ?_, ?_, ?_, ?_⟩
  · simp only [receiver_iteration, hr]
    split_ifs <;> simp
  · simp [receiver_iteration, hr]
  · simp [receiver_iteration, hr]
  · simp [receiver_iteration, hr]
  · simp [receiver_iteration, hr]

/-- Witness for the amended C1: a concrete fault-2 packet arriving at
6000 ms on a freshly booted receiver. -/
theorem receiver_processes_fault_packet_without_reboot_witness :
    rx0.decoder = rxInit ∧
    (RxEvent.reboot ∉
        (receiver_iteration rx0 (telemBytes (send_telemetry 3 3 false 6000 0 2 0)) 6000 false).2.2 ∧
      (receiver_iteration rx0 (telemBytes (send_telemetry 3 3 false 6000 0 2 0))
          6000 false).1.telemetry_received = true ∧
      (receiver_iteration rx0 (telemBytes (send_telemetry 3 3 false 6000 0 2 0))
          6000 false).1.last_telemetry_time = 6000 ∧
      (receiver_iteration rx0 (telemBytes (send_telemetry 3 3 false 6000 0 2 0))
          6000 false).1.packet_count = (rx0.packet_count + 1) % 2 ^ 32 ∧
      (receiver_iteration rx0 (telemBytes (send_telemetry 3 3 false 6000 0 2 0))
          6000 false).1.latest = send_telemetry 3 3 false 6000 0 2 0) :=
  ⟨rfl, receiver_processes_fault_packet_without_reboot rx0 3 3 false 6000 0 2 0 6000 false rfl⟩

/-- Claim C7 counterexample: the receiver's live flag never flips.
After a packet at t = 0 and silence past the 2000 ms timeout, the
iteration at t = 3000 leaves `telemetry_received` true and prints the
timeout warning; the next iteration at t = 3010 prints it again, and
the flag is still true — there is no live-to-not-live transition and
the timeout response is not a single deterministic flip. -/
theorem liveness_flag_never_flips_counterexample :
    (receiver_iteration rx1 [] 3000 false).1.telemetry_received = true ∧
    RxEvent.printWarning ∈ (receiver_iteration rx1 [] 3000 false).2.2 ∧
    RxEvent.printWarning ∈
      (receiver_iteration (receiver_iteration rx1 [] 3000 false).1 [] 3010 false).2.2 ∧
    (receiver_iteration (receiver_iteration rx1 [] 3000 false).1 []
        3010 false).1.telemetry_received = true := by
  decide

/-- Claim C7 (amended): once a valid packet has been received, every
loop iteration that runs more than 2000 ms after the last valid packet
prints a timeout warning — on every such iteration, not once — while
the received flag and the recorded arrival time are left unchanged, so
telemetry is never marked not-live (the never-received state remains
distinct: it is the flag still being false). -/
theorem timeout_warning_every_iteration (st : RxMainState) (now : Nat) (d : Bool)
    (h1 : st.telemetry_received = true) (h2 : st.last_telemetry_time + 2000 < now) :
    RxEvent.printWarning ∈ (receiver_iteration st [] now d).2.2 ∧
    (receiver_iteration st [] now d).1.telemetry_received = true ∧
    (receiver_iteration st [] now d).1.last_telemetry_time = st.last_telemetry_time := by
  have hgt : now - st.last_telemetry_time > 2000 := by omega
  have hr : receive_telemetry_packet st.decoder [] = (st.decoder, none, []) := rfl
  cases d <;> simp [receiver_iteration, hr, h1, hgt]

/-- Witness for the amended C7: last packet at t = 0, iterating at
t = 3000. -/
theorem timeout_warning_every_iteration_witness :
    rx1.telemetry_received = true ∧ rx1.last_telemetry_time + 2000 < 3000 ∧
    (RxEvent.printWarning ∈ (receiver_iteration rx1 [] 3000 false).2.2 ∧
      (receiver_iteration rx1 [] 3000 false).1.telemetry_received = true ∧
      (receiver_iteration rx1 [] 3000 false).1.last_telemetry_time = rx1.last_telemetry_time) :=
  ⟨rfl, by decide, timeout_warning_every_iteration rx1 3000 false rfl (by decide)⟩
